import Mathlib

/-!
Verification development for the Ollama_API repository: a shallow embedding
of the logic in `sys_info.py` (host-capability prober, TOML persistence) and
`pipeline.py` (config load and cpu/gpu flag derivation), with theorems
settling the specification claims about them.
-/

/-- Value tree of the persisted key-value (TOML) document.  Mirrors the
Python values that `toml.dump`/`toml.load` exchange: strings, booleans,
integers, floats (modelled exactly as rationals), arrays, and tables
(Python dicts, with insertion order kept as list order). -/
inductive Toml where
  | vStr (s : String)
  | vBool (b : Bool)
  | vInt (n : Int)
  | vFloat (q : Rat)
  | vArr (xs : List Toml)
  | vTable (kvs : List (String × Toml))

/-- Python exceptions that the pipeline's config handling can raise. -/
inductive PyExc where
  | keyError (k : String)
  | typeError
  | fileNotFound (p : String)
deriving DecidableEq

/-- Association-list lookup on a table's key/value pairs (Python dict access
order is irrelevant for lookup; insertion order only matters for dumping). -/
def lookupKey : List (String × Toml) → String → Option Toml
  | [], _ => none
  | (k, v) :: rest, key => if k = key then some v else lookupKey rest key

/-- Python subscription `x[key]` with a string key: a dict yields the value
or raises KeyError; every non-dict value raises TypeError. -/
def getItem : Toml → String → Except PyExc Toml
  | .vTable kvs, k =>
    match lookupKey kvs k with
    | some v => .ok v
    | none => .error (.keyError k)
  | _, _ => .error .typeError

/-- The nested access `config[system_info][CUDA_Info][CUDA_Available]`
performed at both read sites of `pipeline.py`. -/
def getNested (doc : Toml) : Except PyExc Toml :=
  match getItem doc "system_info" with
  | .error e => .error e
  | .ok a =>
    match getItem a "CUDA_Info" with
    | .error e => .error e
    | .ok b => getItem b "CUDA_Available"

/-- Python equality `x == True` for a loaded TOML value: booleans compare by
value, and the numbers 1 and 1.0 also equal True in Python; everything else
is unequal to True. -/
def pyEqTrue : Toml → Bool
  | .vBool b => b
  | .vInt n => n == 1
  | .vFloat q => q == 1
  | _ => false

/-- Flag derivation of `pipeline.py` lines 102-107: the uncaught nested
access followed by the `== True` branch.  Returns the `(cpu_flag, gpu_flag)`
pair, or the uncaught exception. -/
def deriveFlags (doc : Toml) : Except PyExc (Nat × Nat) :=
  match getNested doc with
  | .error e => .error e
  | .ok v => if pyEqTrue v then .ok (0, 1) else .ok (1, 0)

/-! ## The capability prober (`sys_info.py`) -/

/-- Raw result of `shutil.disk_usage` (bytes). -/
structure DiskRaw where
  total : Nat
  used : Nat
  free : Nat

/-- Raw result of `psutil.cpu_freq()._asdict()` (MHz, floats). -/
structure FreqMHz where
  current : Rat
  minV : Rat
  maxV : Rat

/-- Raw data from `cpuinfo.get_cpu_info()` and `psutil` used by the CPU
sub-probe.  `freq = none` models a falsy `psutil.cpu_freq()` result, which
the code replaces by the string N/A. -/
structure CpuRaw where
  brand : String
  arch : String
  bits : Int
  count : Int
  logical_count : Int
  freq : Option FreqMHz
  flags : List String
  cache_size : String
  l2_cache_size : String
  l3_cache_size : String

/-- Raw per-device data returned by the pynvml device queries. -/
structure DeviceRaw where
  name : String
  memTotal : Nat
  memFree : Nat
  memUsed : Nat
  util : Int
  temp : Int

/-- Raw result of a successful NVML session: `nvmlDeviceGetCount()` and the
per-index device queries. -/
structure GpuRaw where
  deviceCount : Nat
  device : Nat → DeviceRaw

/-- Outcome of the CUDA sub-probe's try block: success, an `NVMLError`, or
any other exception (the two except branches of the code). -/
inductive GpuOutcome where
  | ok (g : GpuRaw)
  | nvmlError (e : String)
  | unexpectedExn (e : String)

/-- Environment a single `get_system_info()` run observes: the host
identity strings, and the outcome of each independently fallible sub-probe
(an `Except.error` carries the message text of the raised exception). -/
structure ProbeEnv where
  os : String
  os_version : String
  os_release : String
  architecture : String
  machine : String
  processor : String
  python_version : String
  python_executable : String
  path_env : List String
  disk : Except String DiskRaw
  cpu : Except String CpuRaw
  nvmlAvailable : Bool
  gpu : GpuOutcome

/-- The Disk_Usage section of the record (formatted strings, as the code
stores them). -/
structure DiskUsage where
  total_s : String
  used_s : String
  free_s : String
  percentage_used_s : String

/-- The CPU_Details section of the record. -/
structure CPUDetails where
  brand : String
  arch : String
  bits : Int
  count : Int
  logical_count : Int
  frequency_mhz : Option FreqMHz
  flags : List String
  cache_size : String
  l2_cache_size : String
  l3_cache_size : String

/-- A per-device record of the CUDA_Info section. -/
structure Device where
  index : Int
  name : String
  memory_total_mb : Int
  memory_free_mb : Int
  memory_used_mb : Int
  gpu_utilization_percent : Int
  temperature_c : Int

/-- The CUDA_Info section of the record when the GPU probe succeeds. -/
structure CudaInfo where
  cuda_available : Bool
  devices : List Device

/-- The HostCapabilityRecord: the dictionary `get_system_info()` returns.
A sub-probe failure leaves that section as an error string
(`Except.error`), exactly as the code stores a message string in place of
the sub-dictionary. -/
structure SystemInfo where
  os : String
  os_version : String
  os_release : String
  architecture : String
  machine : String
  processor : String
  python_version : String
  python_executable : String
  environment_variables : List String
  disk_usage : Except String DiskUsage
  cpu_details : Except String CPUDetails
  cuda_info : Except String CudaInfo

/-- Percentage-used computation of the disk sub-probe:
`(used / total) * 100 if total > 0 else 0`. -/
def percentage_used (used total : Nat) : Rat :=
  if 0 < total then ((used : Rat) / (total : Rat)) * 100 else 0

/-- Two-decimal fixed-point rendering, idealizing Python's `:.2f` format on
exact rationals. -/
def fmt2 (q : Rat) : String :=
  let n : Int := round (q * 100)
  toString (n / 100) ++ "." ++ (if n % 100 < 10 then "0" else "") ++ toString (n % 100)

/-- Byte count rendered in GB with two decimals, as `f-string` formatting
`{x / (1024 ** 3):.2f} GB` does. -/
def fmtGB (n : Nat) : String :=
  fmt2 ((n : Rat) / (1024 ^ 3)) ++ " GB"

/-- The disk sub-probe's try block: formats the `disk_usage` result, or
stores the error message on failure. -/
def diskSection : Except String DiskRaw → Except String DiskUsage
  | .ok d =>
    .ok ⟨fmtGB d.total, fmtGB d.used, fmtGB d.free,
         fmt2 (percentage_used d.used d.total) ++ "%"⟩
  | .error e => .error ("Error retrieving disk usage: " ++ e)

/-- The CPU sub-probe's try block. -/
def cpuSection : Except String CpuRaw → Except String CPUDetails
  | .ok c =>
    .ok ⟨c.brand, c.arch, c.bits, c.count, c.logical_count, c.freq, c.flags,
         c.cache_size, c.l2_cache_size, c.l3_cache_size⟩
  | .error e => .error ("Error retrieving CPU details: " ++ e)

/-- One device entry: memory is integer-divided down to MB by `// (1024**2)`. -/
def mkDevice (i : Nat) (d : DeviceRaw) : Device :=
  ⟨(i : Int), d.name, ((d.memTotal / 1024 ^ 2 : Nat) : Int),
   ((d.memFree / 1024 ^ 2 : Nat) : Int), ((d.memUsed / 1024 ^ 2 : Nat) : Int),
   d.util, d.temp⟩

/-- The CUDA sub-probe: gated on pynvml availability; on success
`CUDA_Available` is `device_count > 0` and the device list is built from
indices `0..device_count-1`; each failure mode stores its message string. -/
def cudaSection (nvmlAvailable : Bool) (g : GpuOutcome) : Except String CudaInfo :=
  if nvmlAvailable then
    match g with
    | .ok gr =>
      .ok ⟨decide (0 < gr.deviceCount),
           (List.range gr.deviceCount).map (fun i => mkDevice i (gr.device i))⟩
    | .nvmlError e => .error ("Error retrieving CUDA information: " ++ e)
    | .unexpectedExn e => .error ("Unexpected error: " ++ e)
  else
    .error "pynvml module not installed. CUDA information not available."

/-- `get_system_info()`: assembles the record from the host identity and
the three independent sub-probe outcomes. -/
def get_system_info (env : ProbeEnv) : SystemInfo :=
  ⟨env.os, env.os_version, env.os_release, env.architecture, env.machine,
   env.processor, env.python_version, env.python_executable, env.path_env,
   diskSection env.disk, cpuSection env.cpu,
   cudaSection env.nvmlAvailable env.gpu⟩

/-! ## Serialization to the TOML document (`save_to_toml` plus `toml.dump`)

The external `toml` library's text round-trip is modelled as faithful on
the value tree: `toml.dump` writes the tree and `toml.load` recovers it.
The functions below give the tree each Python dictionary dumps to, with
keys in the code's insertion order. -/

/-- Frequency entry: a table of the three floats, or the string N/A. -/
def freqToToml : Option FreqMHz → Toml
  | some f => .vTable [("current", .vFloat f.current), ("min", .vFloat f.minV),
                       ("max", .vFloat f.maxV)]
  | none => .vStr "N/A"

/-- Disk_Usage section as dumped. -/
def diskToToml (d : DiskUsage) : Toml :=
  .vTable [("Total", .vStr d.total_s), ("Used", .vStr d.used_s),
           ("Free", .vStr d.free_s), ("Percentage_Used", .vStr d.percentage_used_s)]

/-- CPU_Details section as dumped. -/
def cpuToToml (c : CPUDetails) : Toml :=
  .vTable [("Brand", .vStr c.brand), ("Arch", .vStr c.arch),
           ("Bits", .vInt c.bits), ("Count", .vInt c.count),
           ("Logical_Count", .vInt c.logical_count),
           ("Frequency_MHz", freqToToml c.frequency_mhz),
           ("Flags", .vArr (c.flags.map Toml.vStr)),
           ("Cache_Size", .vStr c.cache_size),
           ("L2_Cache_Size", .vStr c.l2_cache_size),
           ("L3_Cache_Size", .vStr c.l3_cache_size)]

/-- One CUDA device entry as dumped. -/
def deviceToToml (d : Device) : Toml :=
  .vTable [("Index", .vInt d.index), ("Name", .vStr d.name),
           ("Memory_Total_MB", .vInt d.memory_total_mb),
           ("Memory_Free_MB", .vInt d.memory_free_mb),
           ("Memory_Used_MB", .vInt d.memory_used_mb),
           ("GPU_Utilization_Percent", .vInt d.gpu_utilization_percent),
           ("Temperature_C", .vInt d.temperature_c)]

/-- CUDA_Info section as dumped. -/
def cudaToToml (ci : CudaInfo) : Toml :=
  .vTable [("CUDA_Available", .vBool ci.cuda_available),
           ("Devices", .vArr (ci.devices.map deviceToToml))]

/-- A fallible section: its sub-dictionary on success, the raw message
string when the sub-probe stored an error string instead. -/
def exceptToToml (f : α → Toml) : Except String α → Toml
  | .ok a => f a
  | .error e => .vStr e

/-- The full `system_info` dictionary as dumped. -/
def systemInfoToToml (s : SystemInfo) : Toml :=
  .vTable [("OS", .vStr s.os), ("OS_Version", .vStr s.os_version),
           ("OS_Release", .vStr s.os_release),
           ("Architecture", .vStr s.architecture),
           ("Machine", .vStr s.machine), ("Processor", .vStr s.processor),
           ("Python_Version", .vStr s.python_version),
           ("Python_Executable", .vStr s.python_executable),
           ("Environment_Variables", .vArr (s.environment_variables.map Toml.vStr)),
           ("Disk_Usage", exceptToToml diskToToml s.disk_usage),
           ("CPU_Details", exceptToToml cpuToToml s.cpu_details),
           ("CUDA_Info", exceptToToml cudaToToml s.cuda_info)]

/-- `save_to_toml`: wraps the record under the single top-level key
`system_info` (the document written to the file). -/
def save_to_toml (s : SystemInfo) : Toml :=
  .vTable [("system_info", systemInfoToToml s)]

/-! ## Deserialization back into the record shape

Reading the loaded document back into a `SystemInfo`; used to state the
round-trip property (the loaded Python dict is the tree itself, and these
readers give its interpretation as the record). -/

/-- Option-valued map over a list, failing if any element fails. -/
def mapOpt (f : α → Option β) : List α → Option (List β)
  | [] => some []
  | x :: xs =>
    match f x, mapOpt f xs with
    | some y, some ys => some (y :: ys)
    | _, _ => none

/-- Look a key up in a table value (dict access that may fail). -/
def tGetOpt (t : Toml) (k : String) : Option Toml :=
  match t with
  | .vTable kvs => lookupKey kvs k
  | _ => none

/-- Read a string leaf. -/
def asStr : Toml → Option String
  | .vStr s => some s
  | _ => none

/-- Read a boolean leaf. -/
def asBool : Toml → Option Bool
  | .vBool b => some b
  | _ => none

/-- Read an integer leaf. -/
def asInt : Toml → Option Int
  | .vInt n => some n
  | _ => none

/-- Read a float leaf. -/
def asFloat : Toml → Option Rat
  | .vFloat q => some q
  | _ => none

/-- Read an array value. -/
def asArr : Toml → Option (List Toml)
  | .vArr xs => some xs
  | _ => none

/-- Read a string under a key. -/
def readStr (t : Toml) (k : String) : Option String :=
  (tGetOpt t k).bind asStr

/-- Read a boolean under a key. -/
def readBool (t : Toml) (k : String) : Option Bool :=
  (tGetOpt t k).bind asBool

/-- Read an integer under a key. -/
def readInt (t : Toml) (k : String) : Option Int :=
  (tGetOpt t k).bind asInt

/-- Read a float under a key. -/
def readFloat (t : Toml) (k : String) : Option Rat :=
  (tGetOpt t k).bind asFloat

/-- Read an array under a key. -/
def readArr (t : Toml) (k : String) : Option (List Toml) :=
  (tGetOpt t k).bind asArr

/-- Read a frequency entry: the string N/A, or the three-float table. -/
def freqFromToml (t : Toml) : Option (Option FreqMHz) :=
  match t with
  | .vStr s => if s = "N/A" then some none else none
  | _ =>
    (readFloat t "current").bind fun c =>
    (readFloat t "min").bind fun mn =>
    (readFloat t "max").bind fun mx =>
    some (some ⟨c, mn, mx⟩)

/-- Read a Disk_Usage table. -/
def diskFromToml (t : Toml) : Option DiskUsage :=
  (readStr t "Total").bind fun a =>
  (readStr t "Used").bind fun b =>
  (readStr t "Free").bind fun c =>
  (readStr t "Percentage_Used").bind fun d =>
  some ⟨a, b, c, d⟩

/-- Read a CPU_Details table. -/
def cpuFromToml (t : Toml) : Option CPUDetails :=
  (readStr t "Brand").bind fun br =>
  (readStr t "Arch").bind fun ar =>
  (readInt t "Bits").bind fun bi =>
  (readInt t "Count").bind fun co =>
  (readInt t "Logical_Count").bind fun lc =>
  ((tGetOpt t "Frequency_MHz").bind freqFromToml).bind fun f =>
  (readArr t "Flags").bind fun fl =>
  (mapOpt asStr fl).bind fun fls =>
  (readStr t "Cache_Size").bind fun cs =>
  (readStr t "L2_Cache_Size").bind fun l2 =>
  (readStr t "L3_Cache_Size").bind fun l3 =>
  some ⟨br, ar, bi, co, lc, f, fls, cs, l2, l3⟩

/-- Read one CUDA device table. -/
def deviceFromToml (t : Toml) : Option Device :=
  (readInt t "Index").bind fun i =>
  (readStr t "Name").bind fun n =>
  (readInt t "Memory_Total_MB").bind fun mt =>
  (readInt t "Memory_Free_MB").bind fun mf =>
  (readInt t "Memory_Used_MB").bind fun mu =>
  (readInt t "GPU_Utilization_Percent").bind fun gu =>
  (readInt t "Temperature_C").bind fun tc =>
  some ⟨i, n, mt, mf, mu, gu, tc⟩

/-- Read a CUDA_Info table. -/
def cudaFromToml (t : Toml) : Option CudaInfo :=
  (readBool t "CUDA_Available").bind fun b =>
  (readArr t "Devices").bind fun ds =>
  (mapOpt deviceFromToml ds).bind fun devs =>
  some ⟨b, devs⟩

/-- Read a fallible section: an error string stays an error string, a
table is read by the section reader. -/
def exceptFromToml (f : Toml → Option α) : Toml → Option (Except String α)
  | .vStr e => some (.error e)
  | t => (f t).map Except.ok

/-- Read the full `system_info` dictionary back into the record. -/
def systemInfoFromToml (t : Toml) : Option SystemInfo :=
  (readStr t "OS").bind fun os =>
  (readStr t "OS_Version").bind fun osv =>
  (readStr t "OS_Release").bind fun osr =>
  (readStr t "Architecture").bind fun ar =>
  (readStr t "Machine").bind fun ma =>
  (readStr t "Processor").bind fun pr =>
  (readStr t "Python_Version").bind fun pv =>
  (readStr t "Python_Executable").bind fun pe =>
  (readArr t "Environment_Variables").bind fun envs =>
  (mapOpt asStr envs).bind fun es =>
  ((tGetOpt t "Disk_Usage").bind (exceptFromToml diskFromToml)).bind fun d =>
  ((tGetOpt t "CPU_Details").bind (exceptFromToml cpuFromToml)).bind fun c =>
  ((tGetOpt t "CUDA_Info").bind (exceptFromToml cudaFromToml)).bind fun g =>
  some ⟨os, osv, osr, ar, ma, pr, pv, pe, es, d, c, g⟩

/-- Deserialize a loaded document: take the `system_info` entry (the dict
access the pipeline performs) and read the record out of it. -/
def load_record (doc : Toml) : Option SystemInfo :=
  match getItem doc "system_info" with
  | .ok t => systemInfoFromToml t
  | .error _ => none

/-! ## The pipeline (`pipeline.py` `__main__`) -/

/-- Abstract file system: the parsed TOML document stored at each path
(`none` when no file exists there). -/
def FS : Type := String → Option Toml

/-- Path normalization: the prober writes `config.toml` and the pipeline
reads `./config.toml`; the operating system resolves both names to the
same file, so both are keyed identically. -/
def normPath (p : String) : String :=
  if p = "./config.toml" then "config.toml" else p

/-- Read the document at a path. -/
def readFS (fs : FS) (p : String) : Option Toml :=
  fs (normPath p)

/-- Write a document at a path. -/
def writeFS (fs : FS) (p : String) (d : Toml) : FS :=
  fun q => if q = normPath p then some d else fs q

/-- One printed line, one constructor per print statement of the code
(print formatting is abstracted into the constructor's payload). -/
inductive OutLine where
  | cudaAvailable (v : Toml)
  | configKeyMissing (k : String)
  | configFileMissing (p : String)
  | runningScript (p : String)
  | scriptMissing (p : String)
  | stdoutLine (s : String)
  | configGenerated
  | runErrorLine (p : String) (stderr : String)
  | unexpectedErrorLine (m : String)
  | step2Banner
  | cpuFlagLine (n : Nat)
  | gpuFlagLine (n : Nat)

/-- Outcome of the `subprocess.run` call on `sys_info.py`: the script
completes (with the probe environment it observed, and `saveErr` the save
failure message if writing the file failed, which the script catches and
still exits 0 on), or the subprocess raises `CalledProcessError`, or some
other exception is raised by `subprocess.run` itself. -/
inductive RunOutcome where
  | completes (penv : ProbeEnv) (saveErr : Option String)
  | calledProcessError (stderr : String)
  | unexpectedExn (msg : String)

/-- Result of `run_scripts`: the returned boolean, the lines printed, and
the file system after the call. -/
structure RunResult where
  ok : Bool
  out : List OutLine
  fs : FS

/-- `run_scripts(script_path)` specialized to the one call site
`run_scripts(./sys_info.py)`: missing script file returns False; a
completed subprocess prints its stdout and returns True (whether or not
the save inside it succeeded); a raised exception prints the error and
returns False. -/
def run_scripts (scriptExists : Bool) (outcome : RunOutcome) (fs : FS) : RunResult :=
  if scriptExists then
    match outcome with
    | .completes penv saveErr =>
      match saveErr with
      | none =>
        ⟨true,
         [.runningScript "./sys_info.py",
          .stdoutLine "System information saved to config.toml",
          .configGenerated],
         writeFS fs "config.toml" (save_to_toml (get_system_info penv))⟩
      | some msg =>
        ⟨true,
         [.runningScript "./sys_info.py",
          .stdoutLine ("Failed to save system information to config.toml: " ++ msg),
          .configGenerated],
         fs⟩
    | .calledProcessError stderr =>
      ⟨false, [.runningScript "./sys_info.py",
               .runErrorLine "./sys_info.py" stderr], fs⟩
    | .unexpectedExn msg =>
      ⟨false, [.runningScript "./sys_info.py", .unexpectedErrorLine msg], fs⟩
  else
    ⟨false, [.scriptMissing "./sys_info.py"], fs⟩

/-- Environment of one pipeline run: the `--sys_config` path, the initial
file system, whether `./sys_info.py` exists, and what the subprocess would
do if invoked. -/
structure PipeEnv where
  fpath : String
  fs : FS
  scriptExists : Bool
  runOutcome : RunOutcome

/-- Final result of a pipeline run: the derived `(cpu_flag, gpu_flag)`
pair, or the uncaught exception that terminated the process. -/
inductive PipeResult where
  | flags (cpu gpu : Nat)
  | crash (e : PyExc)
deriving DecidableEq

/-- Observable outcome of a pipeline run: result, printed lines, and how
many times the regeneration step (`run_scripts`) was invoked. -/
structure PipeOut where
  result : PipeResult
  out : List OutLine
  regenCalls : Nat

/-- Step 2 of the pipeline: unconditionally re-open `./config.toml`
(an absent file raises an uncaught error) and run the unguarded flag
derivation on the loaded document. -/
def step2 (fs : FS) (out : List OutLine) (regen : Nat) : PipeOut :=
  match readFS fs "./config.toml" with
  | none => ⟨.crash (.fileNotFound "./config.toml"), out ++ [.step2Banner], regen⟩
  | some doc =>
    match deriveFlags doc with
    | .error e => ⟨.crash e, out ++ [.step2Banner], regen⟩
    | .ok (c, g) =>
      ⟨.flags c g, out ++ [.step2Banner, .cpuFlagLine c, .gpuFlagLine g], regen⟩

/-- The whole `__main__` block: if the `--sys_config` file exists, access
the nested key under a `try` that catches only `KeyError` and reports it;
otherwise report the missing file and call `run_scripts` exactly once
(its returned flag is never consulted).  Then step 2 runs regardless. -/
def pipelineRun (e : PipeEnv) : PipeOut :=
  match readFS e.fs e.fpath with
  | some doc =>
    match getNested doc with
    | .ok v => step2 e.fs [.cudaAvailable v] 0
    | .error (.keyError k) => step2 e.fs [.configKeyMissing k] 0
    | .error exc => ⟨.crash exc, [], 0⟩
  | none =>
    step2 (run_scripts e.scriptExists e.runOutcome e.fs).fs
      ([.configFileMissing e.fpath] ++ (run_scripts e.scriptExists e.runOutcome e.fs).out) 1

/-! ## Fixtures for witnesses and counterexamples -/

/-- A loaded document with `CUDA_Available = true`. -/
def docCudaTrue : Toml :=
  .vTable [("system_info",
    .vTable [("CUDA_Info", .vTable [("CUDA_Available", .vBool true)])])]

/-- A loaded document whose `CUDA_Info` table lacks `CUDA_Available`. -/
def docMissingKey : Toml :=
  .vTable [("system_info", .vTable [("CUDA_Info", .vTable [])])]

/-- A file system holding only `config.toml` with the given document. -/
def fsWith (doc : Toml) : FS :=
  fun p => if p = "config.toml" then some doc else none

/-- The empty file system. -/
def fsEmpty : FS := fun _ => none

/-- Pipeline environment: default config path present with CUDA available. -/
def envCudaTrue : PipeEnv :=
  ⟨"./config.toml", fsWith docCudaTrue, true, .calledProcessError ""⟩

/-- Pipeline environment: config present but `CUDA_Available` missing. -/
def envMissingKey : PipeEnv :=
  ⟨"./config.toml", fsWith docMissingKey, true, .calledProcessError ""⟩

/-- Pipeline environment: no config file and the prober script is absent,
so regeneration fails. -/
def envNoConfigNoScript : PipeEnv :=
  ⟨"./config.toml", fsEmpty, false, .calledProcessError "boom"⟩

/-- One concrete GPU device. -/
def deviceRaw0 : DeviceRaw := ⟨"GPU0", 8589934592, 4294967296, 4294967296, 7, 55⟩

/-- Raw GPU probe data with one device. -/
def gpuRaw1 : GpuRaw := ⟨1, fun _ => deviceRaw0⟩

/-- Probe environment: everything succeeds, one CUDA device. -/
def probeEnvGpu : ProbeEnv :=
  ⟨"Linux", "ver", "rel", "64bit", "x86_64", "cpu0", "3.10.0", "/usr/bin/python3",
   ["/usr/bin"], .ok ⟨1000, 500, 500⟩,
   .ok ⟨"brand", "X86_64", 64, 4, 8, none, ["sse2"], "N/A", "N/A", "N/A"⟩,
   true, .ok gpuRaw1⟩

/-- Probe environment: NVML present, zero CUDA devices. -/
def probeEnvNoGpu : ProbeEnv :=
  ⟨"Linux", "ver", "rel", "64bit", "x86_64", "cpu0", "3.10.0", "/usr/bin/python3",
   ["/usr/bin"], .ok ⟨1000, 500, 500⟩,
   .ok ⟨"brand", "X86_64", 64, 4, 8, none, ["sse2"], "N/A", "N/A", "N/A"⟩,
   true, .ok ⟨0, fun _ => deviceRaw0⟩⟩

/-- Probe environment: pynvml not importable. -/
def probeEnvNoNvml : ProbeEnv :=
  ⟨"Linux", "ver", "rel", "64bit", "x86_64", "cpu0", "3.10.0", "/usr/bin/python3",
   ["/usr/bin"], .ok ⟨1000, 500, 500⟩,
   .ok ⟨"brand", "X86_64", 64, 4, 8, none, ["sse2"], "N/A", "N/A", "N/A"⟩,
   false, .ok gpuRaw1⟩

/-- Probe environment: the disk sub-probe raises. -/
def probeEnvDiskFail : ProbeEnv :=
  ⟨"Linux", "ver", "rel", "64bit", "x86_64", "cpu0", "3.10.0", "/usr/bin/python3",
   ["/usr/bin"], .error "boom",
   .ok ⟨"brand", "X86_64", 64, 4, 8, none, ["sse2"], "N/A", "N/A", "N/A"⟩,
   true, .ok gpuRaw1⟩

/-- Pipeline environment: no config file, regeneration succeeds and probes
a GPU-less host. -/
def envRegenNoGpu : PipeEnv :=
  ⟨"./config.toml", fsEmpty, true, .completes probeEnvNoGpu none⟩

/-- Printed lines that report a failure of the regeneration step. -/
def isFailureReport : OutLine → Bool
  | .scriptMissing _ => true
  | .runErrorLine _ _ => true
  | .unexpectedErrorLine _ => true
  | _ => false

/-! ## Helper lemmas -/

/-- Successful flag derivation only ever yields `(1, 0)` or `(0, 1)`. -/
theorem deriveFlags_ok_cases (doc : Toml) (c g : Nat)
    (h : deriveFlags doc = .ok (c, g)) :
    (c = 1 ∧ g = 0) ∨ (c = 0 ∧ g = 1) := by
  cases hn : getNested doc with
  | error e => simp [deriveFlags, hn] at h
  | ok v =>
    rcases Bool.eq_false_or_eq_true (pyEqTrue v) with hv | hv <;>
      simp [deriveFlags, hn, hv] at h <;>
      obtain ⟨h1, h2⟩ := h <;> omega

/-- Step 2 only produces flag pairs coming from `deriveFlags`. -/
theorem step2_flags_cases (fs : FS) (out : List OutLine) (regen c g : Nat)
    (h : (step2 fs out regen).result = .flags c g) :
    (c = 1 ∧ g = 0) ∨ (c = 0 ∧ g = 1) := by
  cases hr : readFS fs "./config.toml" with
  | none => simp [step2, hr] at h
  | some doc =>
    cases hd : deriveFlags doc with
    | error e => simp [step2, hr, hd] at h
    | ok p =>
      obtain ⟨c2, g2⟩ := p
      simp [step2, hr, hd] at h
      obtain ⟨hc, hg⟩ := h
      subst hc
      subst hg
      exact deriveFlags_ok_cases doc _ _ hd

/-- A failed `run_scripts` call printed a failure report. -/
theorem run_scripts_failure_any (sc : Bool) (outc : RunOutcome) (fs : FS)
    (h : (run_scripts sc outc fs).ok = false) :
    (run_scripts sc outc fs).out.any isFailureReport = true := by
  cases sc with
  | false => rfl
  | true =>
    cases outc with
    | completes penv saveErr =>
      cases saveErr with
      | none => exact Bool.noConfusion h
      | some m => exact Bool.noConfusion h
    | calledProcessError stderr => rfl
    | unexpectedExn msg => rfl

/-! ## Claims -/

/-- Claim C1: given a loaded config document in which the nested
`CUDA_Available` field is present, flag derivation yields
`(cpu_flag, gpu_flag) = (0, 1)` when the value equals Python `True`, and
`(1, 0)` otherwise.  (The case of a missing key, carved out separately by
the spec, is settled under C4.) -/
theorem flag_derivation_contract (doc v : Toml) (h : getNested doc = .ok v) :
    deriveFlags doc = .ok (if pyEqTrue v then (0, 1) else (1, 0)) := by
  simp only [deriveFlags, h]
  split <;> rfl

/-- Witness for C1 at a concrete document with `CUDA_Available = true`. -/
theorem flag_derivation_contract_witness :
    getNested docCudaTrue = .ok (.vBool true) ∧
    deriveFlags docCudaTrue = .ok (0, 1) := by
  refine ⟨rfl, ?_⟩
  have h := flag_derivation_contract docCudaTrue (.vBool true) rfl
  simpa [pyEqTrue] using h

/-- Claim C2: every pipeline run that completes flag derivation produces
exactly one of `cpu_flag`, `gpu_flag` equal to 1 and the other 0. -/
theorem flags_mutually_exclusive (e : PipeEnv) (c g : Nat)
    (h : (pipelineRun e).result = .flags c g) :
    (c = 1 ∧ g = 0) ∨ (c = 0 ∧ g = 1) := by
  cases hr : readFS e.fs e.fpath with
  | some doc =>
    cases hn : getNested doc with
    | ok v =>
      simp only [pipelineRun, hr] at h
      simp only [hn] at h
      exact step2_flags_cases _ _ _ _ _ h
    | error exc =>
      cases exc with
      | keyError k =>
        simp only [pipelineRun, hr] at h
        simp only [hn] at h
        exact step2_flags_cases _ _ _ _ _ h
      | typeError =>
        simp only [pipelineRun, hr] at h
        simp only [hn] at h
        simp at h
      | fileNotFound p =>
        simp only [pipelineRun, hr] at h
        simp only [hn] at h
        simp at h
  | none =>
    simp only [pipelineRun, hr] at h
    exact step2_flags_cases _ _ _ _ _ h

/-- Witness for C2 at a concrete run that derives `(0, 1)`. -/
theorem flags_mutually_exclusive_witness :
    (pipelineRun envCudaTrue).result = .flags 0 1 ∧
    ((0 = 1 ∧ 1 = 0) ∨ (0 = 0 ∧ 1 = 1)) :=
  ⟨rfl, flags_mutually_exclusive envCudaTrue 0 1 rfl⟩

/-- Claim C3: in every record produced by the prober whose CUDA section is
a table, the `CUDA_Available` boolean is true iff the device list is
non-empty. -/
theorem cuda_available_iff_devices (env : ProbeEnv) (ci : CudaInfo)
    (h : (get_system_info env).cuda_info = .ok ci) :
    ci.cuda_available = true ↔ ci.devices ≠ [] := by
  simp only [get_system_info] at h
  cases hn : env.nvmlAvailable with
  | false => simp [cudaSection, hn] at h
  | true =>
    cases hg : env.gpu with
    | ok gr =>
      obtain ⟨av, devs⟩ := ci
      simp [cudaSection, hn, hg] at h
      obtain ⟨h1, h2⟩ := h
      subst h1
      subst h2
      simp [List.map_eq_nil_iff, List.range_eq_nil]
      omega
    | nvmlError msg => simp [cudaSection, hn, hg] at h
    | unexpectedExn msg => simp [cudaSection, hn, hg] at h

/-- Witness for C3 at a probe environment with one CUDA device. -/
theorem cuda_available_iff_devices_witness :
    (get_system_info probeEnvGpu).cuda_info =
      .ok ⟨true, [mkDevice 0 deviceRaw0]⟩ ∧
    ((true = true) ↔ [mkDevice 0 deviceRaw0] ≠ ([] : List Device)) :=
  ⟨rfl, cuda_available_iff_devices probeEnvGpu ⟨true, [mkDevice 0 deviceRaw0]⟩ rfl⟩

/-- Claim C7: when pynvml is unavailable, the CUDA section of the record is
the explanatory unavailability string and the probe still completes,
producing the record with every other section populated as usual. -/
theorem nvml_unavailable_section (env : ProbeEnv) (h : env.nvmlAvailable = false) :
    (get_system_info env).cuda_info =
      .error "pynvml module not installed. CUDA information not available." ∧
    (get_system_info env).os = env.os ∧
    (get_system_info env).disk_usage = diskSection env.disk ∧
    (get_system_info env).cpu_details = cpuSection env.cpu := by
  refine ⟨?_, rfl, rfl, rfl⟩
  simp [get_system_info, cudaSection, h]

/-- Witness for C7 at a probe environment without pynvml. -/
theorem nvml_unavailable_section_witness :
    probeEnvNoNvml.nvmlAvailable = false ∧
    (get_system_info probeEnvNoNvml).cuda_info =
      .error "pynvml module not installed. CUDA information not available." :=
  ⟨rfl, (nvml_unavailable_section probeEnvNoNvml rfl).1⟩

/-- Claim C8: sub-probes are independently fallible; when the disk probe
raises, only the disk section becomes the error-description string, while
the CPU and CUDA sections are exactly what their own sub-probe outcomes
dictate, and a (partial) record is still returned. -/
theorem disk_failure_localized (env : ProbeEnv) (msg : String)
    (h : env.disk = .error msg) :
    (get_system_info env).disk_usage = .error ("Error retrieving disk usage: " ++ msg) ∧
    (get_system_info env).cpu_details = cpuSection env.cpu ∧
    (get_system_info env).cuda_info = cudaSection env.nvmlAvailable env.gpu := by
  refine ⟨?_, rfl, rfl⟩
  simp [get_system_info, diskSection, h]

/-- Witness for C8 at a probe environment whose disk probe raises. -/
theorem disk_failure_localized_witness :
    probeEnvDiskFail.disk = .error "boom" ∧
    (get_system_info probeEnvDiskFail).disk_usage =
      .error "Error retrieving disk usage: boom" ∧
    (get_system_info probeEnvDiskFail).cpu_details = cpuSection probeEnvDiskFail.cpu ∧
    (get_system_info probeEnvDiskFail).cuda_info =
      cudaSection probeEnvDiskFail.nvmlAvailable probeEnvDiskFail.gpu :=
  ⟨rfl, disk_failure_localized probeEnvDiskFail "boom" rfl⟩

/-- Claim C10: the disk-usage percentage is guarded against division by
zero: the section stores `percentage_used`, which is 0 when the reported
total is 0 and `used / total * 100` otherwise. -/
theorem disk_percentage_division_guarded (env : ProbeEnv) (d : DiskRaw)
    (h : env.disk = .ok d) :
    (get_system_info env).disk_usage =
      .ok ⟨fmtGB d.total, fmtGB d.used, fmtGB d.free,
           fmt2 (percentage_used d.used d.total) ++ "%"⟩ ∧
    (d.total = 0 → percentage_used d.used d.total = 0) ∧
    (0 < d.total → percentage_used d.used d.total = (d.used : Rat) / (d.total : Rat) * 100) := by
  refine ⟨?_, ?_, ?_⟩
  · simp [get_system_info, diskSection, h]
  · intro h0
    simp [percentage_used, h0]
  · intro h0
    simp [percentage_used, h0]

/-- Probe environment with a zero-total disk report. -/
def probeEnvZeroDisk : ProbeEnv :=
  ⟨"Linux", "v", "r", "64bit", "x86", "p", "3", "py", [], .ok ⟨0, 0, 0⟩,
   .error "no cpu", false, .nvmlError "x"⟩

/-- Witness for C10 at a zero-total disk report. -/
theorem disk_percentage_division_guarded_witness :
    probeEnvZeroDisk.disk = .ok ⟨0, 0, 0⟩ ∧
    percentage_used 0 0 = 0 :=
  ⟨rfl,
   (disk_percentage_division_guarded probeEnvZeroDisk ⟨0, 0, 0⟩ rfl).2.1 rfl⟩

/-- Reading back a just-saved record finds `CUDA_Available` in its nested
position, with the boolean the record's CUDA section holds. -/
theorem getNested_saved (s : SystemInfo) (ci : CudaInfo)
    (h : s.cuda_info = .ok ci) :
    getNested (save_to_toml s) = .ok (.vBool ci.cuda_available) := by
  obtain ⟨os, osv, osr, ar, ma, pr, pv, pe, envs, dk, cp, cu⟩ := s
  simp only at h
  subst h
  simp [save_to_toml, systemInfoToToml, getNested, getItem, lookupKey,
        exceptToToml, cudaToToml]

/-- The regenerated config is what the following re-read loads. -/
theorem readFS_write_config (fs : FS) (d : Toml) :
    readFS (writeFS fs "config.toml" d) "./config.toml" = some d := by
  simp [readFS, writeFS, normPath]

/-- Claim C4, counterexample: with the config file present but its
`CUDA_Info` table lacking `CUDA_Available`, the re-read at step 2 raises an
uncaught KeyError (the run crashes); it does not silently default to the
CPU branch as the claim states. -/
theorem fallback_missing_key_crashes_cex :
    (pipelineRun envMissingKey).result = .crash (.keyError "CUDA_Available") ∧
    ¬ (pipelineRun envMissingKey).result = .flags 1 0 :=
  ⟨rfl, by decide⟩

/-- Claim C4 (amended): when the nested `CUDA_Available` key (or an
enclosing key) is missing, the direct-load path reports the missing key
and derives nothing from it, while the fallback re-read path raises an
uncaught KeyError — crashing instead of silently defaulting to the CPU
branch. -/
theorem missing_key_direct_reports_fallback_crashes (e : PipeEnv)
    (doc doc2 : Toml) (k k2 : String)
    (h1 : readFS e.fs e.fpath = some doc)
    (h2 : getNested doc = .error (.keyError k))
    (h3 : readFS e.fs "./config.toml" = some doc2)
    (h4 : getNested doc2 = .error (.keyError k2)) :
    (pipelineRun e).out = [.configKeyMissing k, .step2Banner] ∧
    (pipelineRun e).result = .crash (.keyError k2) := by
  simp only [pipelineRun, h1, h2, step2, h3, deriveFlags, h4]
  simp

/-- Witness for the amended C4 at a concrete missing-key document. -/
theorem missing_key_direct_reports_fallback_crashes_witness :
    (pipelineRun envMissingKey).out =
      [.configKeyMissing "CUDA_Available", .step2Banner] ∧
    (pipelineRun envMissingKey).result = .crash (.keyError "CUDA_Available") :=
  missing_key_direct_reports_fallback_crashes envMissingKey docMissingKey
    docMissingKey "CUDA_Available" "CUDA_Available" rfl rfl rfl rfl

/-- Claim C5, counterexample: config file absent and regeneration failing
(prober script missing), the run performs its one regeneration attempt and
then crashes on the unconditional re-open of `./config.toml` — flag
derivation does not survive the failure as the claim states. -/
theorem regen_failure_crash_cex :
    (pipelineRun envNoConfigNoScript).result = .crash (.fileNotFound "./config.toml") ∧
    (pipelineRun envNoConfigNoScript).regenCalls = 1 :=
  ⟨rfl, rfl⟩

/-- Claim C5 (amended): if the config file does not exist, the pipeline
attempts exactly one regeneration step before proceeding and a failed
regeneration is reported; but when regeneration fails and the file is
still absent, the subsequent flag derivation crashes on the uncaught
file-open error instead of proceeding. -/
theorem regen_once_reported_then_crash (e : PipeEnv)
    (h1 : readFS e.fs e.fpath = none)
    (h2 : (run_scripts e.scriptExists e.runOutcome e.fs).ok = false)
    (h3 : readFS (run_scripts e.scriptExists e.runOutcome e.fs).fs "./config.toml" = none) :
    (pipelineRun e).regenCalls = 1 ∧
    (pipelineRun e).out.any isFailureReport = true ∧
    (pipelineRun e).result = .crash (.fileNotFound "./config.toml") := by
  have hrep := run_scripts_failure_any e.scriptExists e.runOutcome e.fs h2
  simp only [pipelineRun, h1, step2, h3]
  simp [List.any_append, isFailureReport, hrep]

/-- Witness for the amended C5 at a concrete failing environment. -/
theorem regen_once_reported_then_crash_witness :
    (pipelineRun envNoConfigNoScript).regenCalls = 1 ∧
    (pipelineRun envNoConfigNoScript).out.any isFailureReport = true ∧
    (pipelineRun envNoConfigNoScript).result = .crash (.fileNotFound "./config.toml") :=
  regen_once_reported_then_crash envNoConfigNoScript rfl rfl rfl

/-- Claim C6: config file absent, regeneration succeeds, NVML reports zero
devices: the regenerated document carries `CUDA_Available = false` and the
subsequent derivation takes the CPU branch `(cpu_flag, gpu_flag) = (1, 0)`. -/
theorem absent_config_regen_no_gpu (e : PipeEnv) (penv : ProbeEnv) (gr : GpuRaw)
    (h1 : readFS e.fs e.fpath = none)
    (h2 : e.scriptExists = true)
    (h3 : e.runOutcome = .completes penv none)
    (h4 : penv.nvmlAvailable = true)
    (h5 : penv.gpu = .ok gr)
    (h6 : gr.deviceCount = 0) :
    getNested (save_to_toml (get_system_info penv)) = .ok (.vBool false) ∧
    (pipelineRun e).result = .flags 1 0 := by
  have hcuda : (get_system_info penv).cuda_info = .ok ⟨false, []⟩ := by
    simp [get_system_info, cudaSection, h4, h5, h6]
  have hkey := getNested_saved (get_system_info penv) ⟨false, []⟩ hcuda
  refine ⟨hkey, ?_⟩
  simp only [pipelineRun, h1, h2, h3, run_scripts, if_true]
  simp only [step2, readFS_write_config]
  simp only [deriveFlags, hkey]
  simp [pyEqTrue]

/-- Witness for C6 at a concrete GPU-less regeneration. -/
theorem absent_config_regen_no_gpu_witness :
    getNested (save_to_toml (get_system_info probeEnvNoGpu)) = .ok (.vBool false) ∧
    (pipelineRun envRegenNoGpu).result = .flags 1 0 :=
  absent_config_regen_no_gpu envRegenNoGpu probeEnvNoGpu ⟨0, fun _ => deviceRaw0⟩
    rfl rfl rfl rfl rfl rfl

/-- Reading back a dumped list of strings recovers the list. -/
theorem mapOpt_asStr (xs : List String) :
    mapOpt asStr (xs.map Toml.vStr) = some xs := by
  induction xs with
  | nil => rfl
  | cons x xs ih => simp [mapOpt, asStr, ih]

/-- Reading back a dumped device table recovers the device. -/
theorem deviceFromToml_roundtrip (d : Device) :
    deviceFromToml (deviceToToml d) = some d := by
  cases d
  simp [deviceFromToml, deviceToToml, readInt, readStr, tGetOpt, lookupKey,
        asInt, asStr]

/-- Reading back a dumped device list recovers the list, in order. -/
theorem mapOpt_device (ds : List Device) :
    mapOpt deviceFromToml (ds.map deviceToToml) = some ds := by
  induction ds with
  | nil => rfl
  | cons d ds ih => simp [mapOpt, deviceFromToml_roundtrip, ih]

/-- Reading back a dumped frequency entry recovers it. -/
theorem freq_roundtrip (f : Option FreqMHz) :
    freqFromToml (freqToToml f) = some f := by
  cases f with
  | none => rfl
  | some fr =>
    cases fr
    simp [freqToToml, freqFromToml, readFloat, tGetOpt, lookupKey, asFloat]

/-- Reading back a dumped Disk_Usage section recovers it. -/
theorem diskExc_roundtrip (x : Except String DiskUsage) :
    exceptFromToml diskFromToml (exceptToToml diskToToml x) = some x := by
  cases x with
  | error e => rfl
  | ok d =>
    cases d
    simp [exceptToToml, diskToToml, exceptFromToml, diskFromToml, readStr,
          tGetOpt, lookupKey, asStr]

/-- Reading back a dumped CPU_Details section recovers it. -/
theorem cpuExc_roundtrip (x : Except String CPUDetails) :
    exceptFromToml cpuFromToml (exceptToToml cpuToToml x) = some x := by
  cases x with
  | error e => rfl
  | ok c =>
    obtain ⟨br, ar, bi, co, lc, fr, fl, cs, l2, l3⟩ := c
    simp [exceptToToml, cpuToToml, exceptFromToml, cpuFromToml, readStr,
          readInt, readArr, tGetOpt, lookupKey, asStr, asInt, asArr,
          freq_roundtrip, mapOpt_asStr]

/-- Reading back a dumped CUDA_Info section recovers it. -/
theorem cudaExc_roundtrip (x : Except String CudaInfo) :
    exceptFromToml cudaFromToml (exceptToToml cudaToToml x) = some x := by
  cases x with
  | error e => rfl
  | ok ci =>
    obtain ⟨b, devs⟩ := ci
    simp [exceptToToml, cudaToToml, exceptFromToml, cudaFromToml, readBool,
          readArr, tGetOpt, lookupKey, asBool, asArr, mapOpt_device]

/-- Claim C9: serializing any HostCapabilityRecord under the single
top-level key `system_info` and deserializing the resulting document
recovers a record equal in all fields — values, nesting and list order
included.  (The external toml library's text encoding is modelled as
faithful on the document tree; the repository-level wrapping, nesting and
field layout are what this theorem checks.) -/
theorem save_load_roundtrip (s : SystemInfo) :
    load_record (save_to_toml s) = some s := by
  obtain ⟨os, osv, osr, ar, ma, pr, pv, pe, envs, dk, cp, cu⟩ := s
  simp [load_record, save_to_toml, getItem, systemInfoToToml,
        systemInfoFromToml, readStr, readArr, tGetOpt, lookupKey, asStr,
        asArr, mapOpt_asStr, diskExc_roundtrip, cpuExc_roundtrip,
        cudaExc_roundtrip]
